import Mathlib

/-!
Shallow embedding of the UTG962 instrument-control core (`utg962.py`).

Modelling choices:
* Device interaction is recorded as a trace of protocol events (`Event`):
  ASCII command writes, raw byte-block writes, and queries.  Responses to
  queries are passed in as explicit arguments, since the device is external.
* Each operation returns the trace of events it emitted together with an
  optional error (`none` = success).  On error the trace holds exactly the
  events emitted before the error was raised.
* Python floats are modelled as exact rationals (`ℚ`); every concrete value
  exercised by the claims (0, ±1, 0.5, 1000, 150, ...) is represented exactly
  by a binary float, so the modelled arithmetic agrees with the source there.
* Python `int(...)` applied to a rational is truncation toward zero
  (`ratTrunc`), and `struct.pack("<h", v)` is two's-complement little-endian
  byte encoding (`int16LE`); in every reachable state `v` is in range, so the
  pack range check is omitted.
* Numeric command parameters are rendered by `pyNum`; integer-valued
  parameters render as Python renders `int` arguments.  No claim exercises a
  non-integral parameter rendering.
-/

/-- Errors raised by the control layer: Python `ValueError` (raised by
`min([])` on an empty sequence) and `UtgError` with its message. -/
inductive Err where
  | valueError
  | utgError (msg : String)
deriving DecidableEq, Repr

/-- Protocol events emitted towards the device. -/
inductive Event where
  | write (cmd : String)
  | writeRaw (data : List ℕ)
  | query (cmd : String)
deriving DecidableEq, Repr

/-- ASCII bytes of a string (all protocol strings are ASCII). -/
def sbytes (s : String) : List ℕ := s.data.map Char.toNat

/-- Python `int(q)` on a rational: truncation toward zero. -/
def ratTrunc (q : ℚ) : ℤ :=
  if q.num < 0 then -((q.num.natAbs / q.den : ℕ) : ℤ)
  else ((q.num.natAbs / q.den : ℕ) : ℤ)

/-- `struct.pack("<h", v)`: the two little-endian bytes of a 16-bit
two's-complement integer. -/
def int16LE (v : ℤ) : List ℕ :=
  [(v % 65536).toNat % 256, (v % 65536).toNat / 256]

/-- Parse a byte stream as consecutive little-endian signed 16-bit words. -/
def parse16 : List ℕ → List ℤ
  | b0 :: b1 :: rest =>
      (if b0 + 256 * b1 < 32768 then ((b0 + 256 * b1 : ℕ) : ℤ)
       else ((b0 + 256 * b1 : ℕ) : ℤ) - 65536) :: parse16 rest
  | _ => []

/-- Render a numeric command parameter the way Python renders an `int`
argument; non-integral values (not exercised by any claim) are rendered as a
fraction. -/
def pyNum (q : ℚ) : String :=
  if q.den = 1 then toString q.num else toString q.num ++ "/" ++ toString q.den

/-- `UtgError("Channel must be 1 or 2")` (spec name: `InvalidChannel`). -/
def InvalidChannel : Err := .utgError "Channel must be 1 or 2"

/-- `UtgError("ARB index must be 0 or 1")` (spec name: `InvalidSlot`). -/
def InvalidSlot : Err := .utgError "ARB index must be 0 or 1"

/-- `UtgError(f"Frequency must be in range 0-{limit} Hz")` (spec name:
`FrequencyOutOfRange`). -/
def FrequencyOutOfRange (limit : ℚ) : Err :=
  .utgError ("Frequency must be in range 0-" ++ pyNum limit ++ " Hz")

/-- `UtgError("Symmetry must be in range 0-100%")` (spec name:
`PercentOutOfRange`). -/
def PercentOutOfRange : Err := .utgError "Symmetry must be in range 0-100%"

/-- `UtgError("Data points must be in the range -1.0...+1.0")` (spec name:
`SampleOutOfRange`). -/
def SampleOutOfRange : Err := .utgError "Data points must be in the range -1.0...+1.0"

/-- `UtgError("At least one data point required")` (spec name:
`EmptySequence`). -/
def EmptySequence : Err := .utgError "At least one data point required"

/-- `UtgError("Too many data points, max 4000 allowed")` (spec name:
`TooManySamples`). -/
def TooManySamples : Err := .utgError "Too many data points, max 4000 allowed"

/-- `UtgError("Setting ARB can only after at least one waveform is loaded")`
(spec name: `ArbNotReady`). -/
def ArbNotReady : Err := .utgError "Setting ARB can only after at least one waveform is loaded"

/-- `Utg962._validate_arb_index`. -/
def validate_arb_index (arb_index : ℤ) : Option Err :=
  if arb_index = 0 ∨ arb_index = 1 then none else some InvalidSlot

/-- `Utg962._validate_channel`. -/
def validate_channel (channel : ℤ) : Option Err :=
  if channel = 1 ∨ channel = 2 then none else some InvalidChannel

/-- `Utg962._validate_frequency`. -/
def validate_frequency (limit frequency : ℚ) : Option Err :=
  if frequency < 0 ∨ frequency > limit then some (FrequencyOutOfRange limit) else none

/-- `Utg962._validate_symmetry`. -/
def validate_symmetry (symmetry : ℚ) : Option Err :=
  if symmetry < 0 ∨ symmetry > 100 then some PercentOutOfRange else none

/-- `Utg962.ARB_HEADER`: the fixed six-line arbitrary-waveform header. -/
def ARB_HEADER : String :=
  "VPP:0\r\n" ++ "OFFSET:0\r\n" ++ "RATEPOS:0\r\n" ++ "RATENEG:0\r\n"
    ++ "MAX:32767\r\n" ++ "MIN:-32767\r\n"

/-- `Utg962.ARB_HEADER_INTRO`: `[HEAD]:` followed by the byte length of the
header. -/
def ARB_HEADER_INTRO : String :=
  "[HEAD]:" ++ toString (sbytes ARB_HEADER).length ++ "\r\n"

/-- `Utg962.load_arb_from_list`.  `wav_chan1`/`wav_chan2` are the device's
responses to the two mode queries.  Python's `min(data)` on an empty list
raises `ValueError` before the explicit length check is reached. -/
def load_arb_from_list (arb_index : ℤ) (arb_name : String) (data : List ℚ)
    (wav_chan1 wav_chan2 : String) : List Event × Option Err :=
  match validate_arb_index arb_index with
  | some e => ([], some e)
  | none =>
  match data with
  | [] => ([], some .valueError)
  | x :: xs =>
    if xs.foldl min x < -1 ∨ xs.foldl max x > 1 then ([], some SampleOutOfRange)
    else if (x :: xs).length < 1 then ([], some EmptySequence)
    else if (x :: xs).length > 4000 then ([], some TooManySamples)
    else
      let scaled := (x :: xs).map fun v => ratTrunc (32767 * v)
      let binary_data := (scaled.map int16LE).flatten
      let data_intro := "[DATA]:" ++ toString (x :: xs).length ++ "\r\n"
      ([.query ":CHAN1:BASE:WAV?", .query ":CHAN2:BASE:WAV?",
        .write (":WARB" ++ toString (arb_index + 1) ++ ":CARRIER " ++ arb_name),
        .writeRaw (sbytes ARB_HEADER_INTRO ++ sbytes ARB_HEADER
          ++ sbytes data_intro ++ binary_data),
        .write (":CHAN1:BASE:WAV " ++ wav_chan1),
        .write (":CHAN2:BASE:WAV " ++ wav_chan2),
        .write ":SYSTEM:LOCK OFF"], none)

/-- `Utg962.set_arb`.  `sour_resp` is the device's response to the
`:ARB:SOUR?` readback query. -/
def set_arb (channel arb_index : ℤ) (frequency low high : ℚ)
    (sour_resp : String) : List Event × Option Err :=
  match validate_channel channel with
  | some e => ([], some e)
  | none =>
  match validate_arb_index arb_index with
  | some e => ([], some e)
  | none =>
  match validate_frequency 10000000 frequency with
  | some e => ([], some e)
  | none =>
    let w1 := ":CHAN" ++ toString channel ++ ":BASE:WAV ARB;"
      ++ ":CHAN" ++ toString channel ++ ":ARB:SOUR EXT"
    let q1 := ":CHAN" ++ toString channel ++ ":ARB:SOUR?"
    if sour_resp.take 3 ≠ "EXT" then
      ([.write w1, .query q1], some ArbNotReady)
    else
      ([.write w1, .query q1,
        .write (":CHAN" ++ toString channel ++ ":ARB:IND " ++ toString arb_index ++ ";"
          ++ ":CHAN" ++ toString channel ++ ":BASE:FREQ " ++ pyNum frequency ++ ";"
          ++ ":CHAN" ++ toString channel ++ ":BASE:LOW " ++ pyNum low ++ ";"
          ++ ":CHAN" ++ toString channel ++ ":BASE:HIGH " ++ pyNum high ++ ";"
          ++ ":CHAN" ++ toString channel ++ ":OUTP ON;"
          ++ ":SYSTEM:LOCK OFF")], none)

/-- `Utg962.set_ramp`. -/
def set_ramp (channel : ℤ) (frequency low high symmetry : ℚ) :
    List Event × Option Err :=
  match validate_channel channel with
  | some e => ([], some e)
  | none =>
  match validate_frequency 400000 frequency with
  | some e => ([], some e)
  | none =>
  match validate_symmetry symmetry with
  | some e => ([], some e)
  | none =>
    ([.write (":CHAN" ++ toString channel ++ ":BASE:WAV RAMP;"
      ++ ":CHAN" ++ toString channel ++ ":BASE:FREQ " ++ pyNum frequency ++ ";"
      ++ ":CHAN" ++ toString channel ++ ":BASE:LOW " ++ pyNum low ++ ";"
      ++ ":CHAN" ++ toString channel ++ ":BASE:HIGH " ++ pyNum high ++ ";"
      ++ ":CHAN" ++ toString channel ++ ":RAMP:SYMM " ++ pyNum symmetry ++ ";"
      ++ ":CHAN" ++ toString channel ++ ":OUTP ON;"
      ++ ":SYSTEM:LOCK OFF")], none)

/-- `Utg962.set_sine`. -/
def set_sine (channel : ℤ) (frequency low high : ℚ) : List Event × Option Err :=
  match validate_channel channel with
  | some e => ([], some e)
  | none =>
  match validate_frequency 60000000 frequency with
  | some e => ([], some e)
  | none =>
    ([.write (":CHAN" ++ toString channel ++ ":BASE:WAV SIN;"
      ++ ":CHAN" ++ toString channel ++ ":BASE:FREQ " ++ pyNum frequency ++ ";"
      ++ ":CHAN" ++ toString channel ++ ":BASE:LOW " ++ pyNum low ++ ";"
      ++ ":CHAN" ++ toString channel ++ ":BASE:HIGH " ++ pyNum high ++ ";"
      ++ ":CHAN" ++ toString channel ++ ":OUTP ON;"
      ++ ":SYSTEM:LOCK OFF")], none)

/-- `Utg962.set_square`.  The source validates only the channel and the
frequency; `duty_cycle` is interpolated into the command unchecked. -/
def set_square (channel : ℤ) (frequency low high duty_cycle : ℚ) :
    List Event × Option Err :=
  match validate_channel channel with
  | some e => ([], some e)
  | none =>
  match validate_frequency 20000000 frequency with
  | some e => ([], some e)
  | none =>
    ([.write (":CHAN" ++ toString channel ++ ":BASE:WAV SQU;"
      ++ ":CHAN" ++ toString channel ++ ":BASE:FREQ " ++ pyNum frequency ++ ";"
      ++ ":CHAN" ++ toString channel ++ ":BASE:LOW " ++ pyNum low ++ ";"
      ++ ":CHAN" ++ toString channel ++ ":BASE:HIGH " ++ pyNum high ++ ";"
      ++ ":CHAN" ++ toString channel ++ ":BASE:DUTY " ++ pyNum duty_cycle ++ ";"
      ++ ":CHAN" ++ toString channel ++ ":OUTP ON;"
      ++ ":SYSTEM:LOCK OFF")], none)

/-- `Utg962.set_output` (`enable` is the source's `on` argument, a Lean
keyword). -/
def set_output (channel : ℤ) (enable : Bool) : List Event × Option Err :=
  match validate_channel channel with
  | some e => ([], some e)
  | none =>
    ([.write (":CHAN" ++ toString channel ++ ":OUTP "
      ++ (if enable then "ON" else "OFF") ++ ";:SYSTEM:LOCK OFF")], none)

/-- One pixel of the decoded screenshot. -/
structure RGB where
  r : ℕ
  g : ℕ
  b : ℕ
deriving DecidableEq, Repr

/-- A decoded pixel buffer: dimensions plus the pixel at column `x`, row `y`. -/
structure Img where
  width : ℕ
  height : ℕ
  px : ℕ → ℕ → RGB

/-- `img.transpose(Image.FLIP_LEFT_RIGHT)`: reverse horizontal pixel order per
row. -/
def flipLR (im : Img) : Img :=
  ⟨im.width, im.height, fun x y => im.px (im.width - 1 - x) y⟩

/-- `r, g, b = img.split(); Image.merge("RGB", (g, r, b))`: swap the first two
channel planes. -/
def mergeGRB (im : Img) : Img :=
  ⟨im.width, im.height, fun x y => ⟨(im.px x y).g, (im.px x y).r, (im.px x y).b⟩⟩

/-- `Utg962.save_display`'s image correction: flip left-right, then swap the
R and G planes. -/
def correctDisplay (im : Img) : Img := mergeGRB (flipLR im)

/-- Modelled from the spec: `round(32767 * x)` with ties to nearest even
("banker's rounding"), the rounding mode the round-trip claim asserts.  Stated
from the spec's words, for comparison with the source's `ratTrunc`. -/
def roundHalfEven (q : ℚ) : ℤ :=
  let f : ℤ := q.num / (q.den : ℤ)
  let r : ℚ := q - (f : ℚ)
  if r < 1/2 then f
  else if 1/2 < r then f + 1
  else if f % 2 = 0 then f else f + 1

/-! ### Supporting lemmas -/

/-- `ratTrunc` is floor on nonnegative rationals and ceiling on negative
ones. -/
theorem ratTrunc_eq (q : ℚ) : ratTrunc q = if 0 ≤ q then ⌊q⌋ else ⌈q⌉ := by
  unfold ratTrunc
  by_cases h : 0 ≤ q
  · have hn : 0 ≤ q.num := Rat.num_nonneg.mpr h
    rw [if_neg (by omega), if_pos h, Rat.floor_def, Int.natCast_ediv,
      Int.natAbs_of_nonneg hn]
    rfl
  · have hq : q < 0 := lt_of_not_le h
    have hn : q.num < 0 := Rat.num_neg.mpr hq
    have hceil : ⌈q⌉ = -⌊-q⌋ := by rw [Int.floor_neg, neg_neg]
    have h1 : ((q.num.natAbs / q.den : ℕ) : ℤ) = (-q.num) / (q.den : ℤ) := by
      rw [Int.natCast_ediv, ← Int.natAbs_neg q.num,
        Int.natAbs_of_nonneg (show (0:ℤ) ≤ -q.num by omega)]
      rfl
    rw [if_pos hn, if_neg h, hceil, Rat.floor_def, Rat.neg_num, Rat.neg_den, h1]

/-- Truncation of `32767 * x` stays within `[-32767, 32767]` for samples in
`[-1, 1]`. -/
theorem ratTrunc_scale_bounds (x : ℚ) (hlo : -1 ≤ x) (hhi : x ≤ 1) :
    -32767 ≤ ratTrunc (32767 * x) ∧ ratTrunc (32767 * x) ≤ 32767 := by
  have hub : 32767 * x ≤ 32767 := by nlinarith
  have hlb : -32767 ≤ 32767 * x := by nlinarith
  rw [ratTrunc_eq]
  by_cases h : 0 ≤ (32767 * x : ℚ)
  · rw [if_pos h]
    constructor
    · have h0 : (0:ℤ) ≤ ⌊(32767 * x : ℚ)⌋ := Int.le_floor.mpr (by exact_mod_cast h)
      omega
    · have := Int.floor_mono hub
      rwa [show ((32767 : ℚ)) = ((32767 : ℤ) : ℚ) by norm_num,
        Int.floor_intCast] at this
  · rw [if_neg h]
    constructor
    · have := Int.ceil_mono hlb
      rwa [show ((-32767 : ℚ)) = ((-32767 : ℤ) : ℚ) by norm_num,
        Int.ceil_intCast] at this
    · exact le_trans (Int.ceil_le.mpr (le_of_lt (lt_of_not_le h))) (by norm_num)

/-- Decoding the two little-endian bytes of an in-range 16-bit value recovers
the value. -/
theorem parse16_int16LE (v : ℤ) (hlo : -32768 ≤ v) (hhi : v ≤ 32767)
    (rest : List ℕ) : parse16 (int16LE v ++ rest) = v :: parse16 rest := by
  have hm : (0:ℤ) ≤ v % 65536 := Int.emod_nonneg v (by norm_num)
  have hm2 : v % 65536 < 65536 := Int.emod_lt_of_pos v (by norm_num)
  have ht : ((v % 65536).toNat : ℤ) = v % 65536 := Int.toNat_of_nonneg hm
  simp only [int16LE, List.cons_append, List.nil_append, parse16]
  congr 1
  split <;> omega

/-- Parsing the concatenated little-endian encodings of in-range 16-bit
values recovers the values. -/
theorem parse16_flatten (vs : List ℤ) (h : ∀ v ∈ vs, -32768 ≤ v ∧ v ≤ 32767) :
    parse16 ((vs.map int16LE).flatten) = vs := by
  induction vs with
  | nil => rfl
  | cons v vt ih =>
    have hv := h v (List.mem_cons_self v vt)
    simp only [List.map_cons, List.flatten_cons]
    rw [parse16_int16LE v hv.1 hv.2, ih fun w hw => h w (List.mem_cons_of_mem v hw)]

/-- Each 16-bit value contributes exactly two payload bytes. -/
theorem flatten_int16LE_length (vs : List ℤ) :
    ((vs.map int16LE).flatten).length = 2 * vs.length := by
  induction vs with
  | nil => rfl
  | cons v vt ih =>
    simp only [List.map_cons, List.flatten_cons, List.length_append, ih,
      int16LE, List.length_cons, List.length_nil, List.length_cons]
    omega

/-- `ratTrunc` is the identity on integers. -/
theorem ratTrunc_intCast (z : ℤ) : ratTrunc ((z : ℚ)) = z := by
  rw [ratTrunc_eq]
  split
  · exact Int.floor_intCast z
  · exact Int.ceil_intCast z

/-- A left fold with `min` is a lower bound of the seed. -/
theorem foldl_min_le_seed (xs : List ℚ) (x : ℚ) : xs.foldl min x ≤ x := by
  induction xs generalizing x with
  | nil => exact le_refl x
  | cons z zs ih => exact le_trans (ih (min x z)) (min_le_left x z)

/-- A left fold with `min` is a lower bound of every element. -/
theorem foldl_min_le_mem (xs : List ℚ) (x y : ℚ) (hy : y ∈ xs) :
    xs.foldl min x ≤ y := by
  induction xs generalizing x with
  | nil => cases hy
  | cons z zs ih =>
    rcases List.mem_cons.mp hy with rfl | hy2
    · exact le_trans (foldl_min_le_seed zs (min x y)) (min_le_right x y)
    · exact ih (min x z) hy2

/-- A common lower bound of the seed and all elements bounds the `min` fold. -/
theorem le_foldl_min (xs : List ℚ) (x c : ℚ) (hx : c ≤ x)
    (h : ∀ y ∈ xs, c ≤ y) : c ≤ xs.foldl min x := by
  induction xs generalizing x with
  | nil => exact hx
  | cons z zs ih =>
    exact ih (min x z) (le_min hx (h z (List.mem_cons_self z zs)))
      fun y hy => h y (List.mem_cons_of_mem z hy)

/-- A left fold with `max` is an upper bound of the seed. -/
theorem seed_le_foldl_max (xs : List ℚ) (x : ℚ) : x ≤ xs.foldl max x := by
  induction xs generalizing x with
  | nil => exact le_refl x
  | cons z zs ih => exact le_trans (le_max_left x z) (ih (max x z))

/-- A left fold with `max` is an upper bound of every element. -/
theorem mem_le_foldl_max (xs : List ℚ) (x y : ℚ) (hy : y ∈ xs) :
    y ≤ xs.foldl max x := by
  induction xs generalizing x with
  | nil => cases hy
  | cons z zs ih =>
    rcases List.mem_cons.mp hy with rfl | hy2
    · exact le_trans (le_max_right x y) (seed_le_foldl_max zs (max x y))
    · exact ih (max x z) hy2

/-- A common upper bound of the seed and all elements bounds the `max` fold. -/
theorem foldl_max_le (xs : List ℚ) (x c : ℚ) (hx : x ≤ c)
    (h : ∀ y ∈ xs, y ≤ c) : xs.foldl max x ≤ c := by
  induction xs generalizing x with
  | nil => exact hx
  | cons z zs ih =>
    exact ih (max x z) (max_le hx (h z (List.mem_cons_self z zs)))
      fun y hy => h y (List.mem_cons_of_mem z hy)

/-- On a nonempty, in-range, short-enough sequence and a valid slot, the
upload emits exactly the seven-event trace of the source and succeeds. -/
theorem load_arb_ok (i : ℤ) (arb_name : String) (x : ℚ) (xs : List ℚ)
    (w1 w2 : String) (hi : i = 0 ∨ i = 1) (hlen : (x :: xs).length ≤ 4000)
    (hlo : ∀ y ∈ x :: xs, -1 ≤ y) (hhi : ∀ y ∈ x :: xs, y ≤ 1) :
    load_arb_from_list i arb_name (x :: xs) w1 w2 =
      ([.query ":CHAN1:BASE:WAV?", .query ":CHAN2:BASE:WAV?",
        .write (":WARB" ++ toString (i + 1) ++ ":CARRIER " ++ arb_name),
        .writeRaw (sbytes ARB_HEADER_INTRO ++ sbytes ARB_HEADER
          ++ sbytes ("[DATA]:" ++ toString (x :: xs).length ++ "\r\n")
          ++ ((((x :: xs).map fun v => ratTrunc (32767 * v)).map int16LE).flatten)),
        .write (":CHAN1:BASE:WAV " ++ w1),
        .write (":CHAN2:BASE:WAV " ++ w2),
        .write ":SYSTEM:LOCK OFF"], none) := by
  have hv : validate_arb_index i = none := by
    rcases hi with rfl | rfl <;> decide
  have hmin : ¬ xs.foldl min x < -1 :=
    not_lt.mpr (le_foldl_min xs x (-1) (hlo x (List.mem_cons_self x xs))
      fun y hy => hlo y (List.mem_cons_of_mem x hy))
  have hmax : ¬ xs.foldl max x > 1 :=
    not_lt.mpr (foldl_max_le xs x 1 (hhi x (List.mem_cons_self x xs))
      fun y hy => hhi y (List.mem_cons_of_mem x hy))
  simp only [load_arb_from_list, hv]
  rw [if_neg (by push_neg; exact ⟨not_lt.mp hmin, not_lt.mp hmax⟩),
    if_neg (by simp), if_neg (by omega)]

/-- Evaluation of the sample scaling at `1/2`: Python `int()` truncates. -/
theorem ratTrunc_half : ratTrunc (32767 * (1/2 : ℚ)) = 16383 := by
  rw [show (32767 * (1/2 : ℚ)) = ((32767:ℤ):ℚ) / ((2:ℕ):ℚ) by norm_num,
    ratTrunc_eq, if_pos (by norm_num), Rat.floor_intCast_div_natCast]
  decide

/-! ### Claim theorems -/

/-- C1 counterexample: encoding the one-sample sequence `[1/2]` produces the
payload bytes `[255, 63]`, which parse back to `16383`, while
`round(32767 * 0.5)` with ties to even is `16384`; the claimed round-trip
equality fails at this input. -/
theorem C1_counterexample :
    load_arb_from_list 0 "w" [1/2] "SIN" "SIN" =
      ([.query ":CHAN1:BASE:WAV?", .query ":CHAN2:BASE:WAV?",
        .write ":WARB1:CARRIER w",
        .writeRaw (sbytes ARB_HEADER_INTRO ++ sbytes ARB_HEADER
          ++ sbytes "[DATA]:1\r\n" ++ [255, 63]),
        .write ":CHAN1:BASE:WAV SIN", .write ":CHAN2:BASE:WAV SIN",
        .write ":SYSTEM:LOCK OFF"], none)
    ∧ parse16 [255, 63] = [16383]
    ∧ roundHalfEven (32767 * (1/2 : ℚ)) = 16384
    ∧ (16383 : ℤ) ≠ 16384 := by
  refine ⟨?_, by decide, ?_, by decide⟩
  · rw [load_arb_ok 0 "w" (1/2) [] "SIN" "SIN" (Or.inl rfl) (by norm_num)
      (by norm_num) (by norm_num)]
    simp only [List.map_cons, List.map_nil, ratTrunc_half]
    decide
  · unfold roundHalfEven
    norm_num

/-- C1 (amended): for every valid sample sequence (length in `[1, 4000]`, all
values in `[-1, 1]`), the upload succeeds and the binary block's payload
parses as `N` little-endian signed 16-bit words equal to
`int(32767 * sample_i)` — truncation toward zero, not round-half-to-even. -/
theorem C1_roundtrip_truncation (i : ℤ) (arb_name : String) (x : ℚ)
    (xs : List ℚ) (w1 w2 : String) (hi : i = 0 ∨ i = 1)
    (hlen : (x :: xs).length ≤ 4000) (hlo : ∀ y ∈ x :: xs, -1 ≤ y)
    (hhi : ∀ y ∈ x :: xs, y ≤ 1) :
    ∃ payload : List ℕ,
      (load_arb_from_list i arb_name (x :: xs) w1 w2).2 = none
      ∧ ((load_arb_from_list i arb_name (x :: xs) w1 w2).1)[3]? =
          some (.writeRaw (sbytes ARB_HEADER_INTRO ++ sbytes ARB_HEADER
            ++ sbytes ("[DATA]:" ++ toString (x :: xs).length ++ "\r\n") ++ payload))
      ∧ payload.length = 2 * (x :: xs).length
      ∧ parse16 payload = (x :: xs).map fun v => ratTrunc (32767 * v) := by
  refine ⟨(((x :: xs).map fun v => ratTrunc (32767 * v)).map int16LE).flatten,
    ?_, ?_, ?_, ?_⟩
  · rw [load_arb_ok i arb_name x xs w1 w2 hi hlen hlo hhi]
  · rw [load_arb_ok i arb_name x xs w1 w2 hi hlen hlo hhi]
    rfl
  · rw [flatten_int16LE_length, List.length_map]
  · refine parse16_flatten _ fun v hv => ?_
    rw [List.mem_map] at hv
    obtain ⟨y, hy, rfl⟩ := hv
    have hb := ratTrunc_scale_bounds y (hlo y hy) (hhi y hy)
    exact ⟨by omega, by omega⟩

/-- C1 witness: the round-trip theorem instantiated at slot 0 and the
one-sample sequence `[1]`. -/
theorem C1_roundtrip_truncation_witness :
    ∃ payload : List ℕ,
      (load_arb_from_list 0 "w" [(1:ℚ)] "a" "b").2 = none
      ∧ ((load_arb_from_list 0 "w" [(1:ℚ)] "a" "b").1)[3]? =
          some (.writeRaw (sbytes ARB_HEADER_INTRO ++ sbytes ARB_HEADER
            ++ sbytes ("[DATA]:" ++ toString ([(1:ℚ)]).length ++ "\r\n") ++ payload))
      ∧ payload.length = 2 * ([(1:ℚ)]).length
      ∧ parse16 payload = ([(1:ℚ)]).map fun v => ratTrunc (32767 * v) :=
  C1_roundtrip_truncation 0 "w" 1 [] "a" "b" (Or.inl rfl) (by decide)
    (by decide) (by decide)

/-- C2: calling the upload with a valid slot and an empty sample sequence
fails before emitting any protocol event, but with Python's `ValueError`
(raised by `min([])`), not with the `EmptySequence` error the spec names —
the source's own empty-sequence check sits after the `min`/`max` range check
and is unreachable. -/
theorem C2_empty_sequence_valueError :
    load_arb_from_list 0 "wave" [] "SIN" "SIN" = ([], some Err.valueError)
    ∧ Err.valueError ≠ EmptySequence := by
  exact ⟨by decide, by decide⟩

/-- C3 counterexample: `set_square` with duty cycle 150 (outside `[0, 100]`)
does not fail with `PercentOutOfRange`; it sends the combined command with
`DUTY 150` and succeeds. -/
theorem C3_counterexample :
    set_square 1 1000 (-1) 1 150 =
      ([.write (":CHAN1:BASE:WAV SQU;:CHAN1:BASE:FREQ 1000;:CHAN1:BASE:LOW -1;:CHAN1:BASE:HIGH 1;:CHAN1:BASE:DUTY 150;:CHAN1:OUTP ON;:SYSTEM:LOCK OFF")], none)
    ∧ (set_square 1 1000 (-1) 1 150).2 ≠ some PercentOutOfRange := by
  exact ⟨by decide, by decide⟩

/-- C3 (amended): `set_square` performs no duty-cycle validation at all:
for every duty-cycle value (in range or not), with a valid channel and
frequency the combined command containing the duty value is sent and no
error is raised. -/
theorem C3_square_duty_unvalidated (c : ℤ) (f l h d : ℚ)
    (hc : c = 1 ∨ c = 2) (hf0 : 0 ≤ f) (hf1 : f ≤ 20000000) :
    set_square c f l h d =
      ([.write (":CHAN" ++ toString c ++ ":BASE:WAV SQU;"
        ++ ":CHAN" ++ toString c ++ ":BASE:FREQ " ++ pyNum f ++ ";"
        ++ ":CHAN" ++ toString c ++ ":BASE:LOW " ++ pyNum l ++ ";"
        ++ ":CHAN" ++ toString c ++ ":BASE:HIGH " ++ pyNum h ++ ";"
        ++ ":CHAN" ++ toString c ++ ":BASE:DUTY " ++ pyNum d ++ ";"
        ++ ":CHAN" ++ toString c ++ ":OUTP ON;"
        ++ ":SYSTEM:LOCK OFF")], none) := by
  have hvc : validate_channel c = none := by rcases hc with rfl | rfl <;> decide
  have hvf : validate_frequency 20000000 f = none := by
    unfold validate_frequency
    rw [if_neg (by push_neg; exact ⟨hf0, hf1⟩)]
  simp only [set_square, hvc, hvf]

/-- C3 witness: the amended theorem instantiated at channel 1, frequency
1000, duty cycle 150. -/
theorem C3_square_duty_unvalidated_witness :
    set_square 1 1000 (-1) 1 150 =
      ([.write (":CHAN" ++ toString (1:ℤ) ++ ":BASE:WAV SQU;"
        ++ ":CHAN" ++ toString (1:ℤ) ++ ":BASE:FREQ " ++ pyNum 1000 ++ ";"
        ++ ":CHAN" ++ toString (1:ℤ) ++ ":BASE:LOW " ++ pyNum (-1) ++ ";"
        ++ ":CHAN" ++ toString (1:ℤ) ++ ":BASE:HIGH " ++ pyNum 1 ++ ";"
        ++ ":CHAN" ++ toString (1:ℤ) ++ ":BASE:DUTY " ++ pyNum 150 ++ ";"
        ++ ":CHAN" ++ toString (1:ℤ) ++ ":OUTP ON;"
        ++ ":SYSTEM:LOCK OFF")], none) :=
  C3_square_duty_unvalidated 1 1000 (-1) 1 150 (Or.inl rfl) (by decide) (by decide)

/-- C4: the emitted binary block is headerIntro, then the six fixed header
lines, then `[DATA]:N` and the `N` little-endian 16-bit words; the header
intro is `[HEAD]:62` (62 header bytes); encoding `[1, -1, 0]` gives data
intro `[DATA]:3` and the little-endian bytes of `[32767, -32767, 0]`. -/
theorem C4_block_structure :
    ARB_HEADER_INTRO = "[HEAD]:62\r\n"
    ∧ ARB_HEADER = "VPP:0\r\nOFFSET:0\r\nRATEPOS:0\r\nRATENEG:0\r\nMAX:32767\r\nMIN:-32767\r\n"
    ∧ load_arb_from_list 0 "wave" [1, -1, 0] "SIN" "SQU" =
        ([.query ":CHAN1:BASE:WAV?", .query ":CHAN2:BASE:WAV?",
          .write ":WARB1:CARRIER wave",
          .writeRaw (sbytes "[HEAD]:62\r\n"
            ++ sbytes "VPP:0\r\nOFFSET:0\r\nRATEPOS:0\r\nRATENEG:0\r\nMAX:32767\r\nMIN:-32767\r\n"
            ++ sbytes "[DATA]:3\r\n" ++ [255, 127, 1, 128, 0, 0]),
          .write ":CHAN1:BASE:WAV SIN", .write ":CHAN2:BASE:WAV SQU",
          .write ":SYSTEM:LOCK OFF"], none)
    ∧ parse16 [255, 127, 1, 128, 0, 0] = [32767, -32767, 0]
    ∧ (∀ (i : ℤ) (arb_name : String) (x : ℚ) (xs : List ℚ) (w1 w2 : String),
        (i = 0 ∨ i = 1) → (x :: xs).length ≤ 4000 → (∀ y ∈ x :: xs, -1 ≤ y) →
        (∀ y ∈ x :: xs, y ≤ 1) →
        ((load_arb_from_list i arb_name (x :: xs) w1 w2).1)[3]? =
          some (.writeRaw (sbytes ARB_HEADER_INTRO ++ sbytes ARB_HEADER
            ++ sbytes ("[DATA]:" ++ toString (x :: xs).length ++ "\r\n")
            ++ ((((x :: xs).map fun v => ratTrunc (32767 * v)).map int16LE).flatten)))) := by
  have e1 : ratTrunc (32767 * (1:ℚ)) = 32767 := by
    rw [show (32767 * (1:ℚ)) = ((32767:ℤ):ℚ) by norm_num, ratTrunc_intCast]
  have e2 : ratTrunc (32767 * (-1:ℚ)) = -32767 := by
    rw [show (32767 * (-1:ℚ)) = ((-32767:ℤ):ℚ) by norm_num, ratTrunc_intCast]
  have e3 : ratTrunc (32767 * (0:ℚ)) = 0 := by
    rw [show (32767 * (0:ℚ)) = ((0:ℤ):ℚ) by norm_num, ratTrunc_intCast]
  refine ⟨by decide, by decide, ?_, by decide, ?_⟩
  · rw [load_arb_ok 0 "wave" 1 [-1, 0] "SIN" "SQU" (Or.inl rfl) (by decide)
      (by decide) (by decide)]
    simp only [List.map_cons, List.map_nil, e1, e2, e3]
    decide
  · intro i arb_name x xs w1 w2 hi hlen hlo hhi
    rw [load_arb_ok i arb_name x xs w1 w2 hi hlen hlo hhi]
    rfl

/-- C4 witness: the general block-layout conjunct instantiated at slot 1 and
the one-sample sequence `[1]`. -/
theorem C4_block_structure_witness :
    ((load_arb_from_list 1 "n" [(1:ℚ)] "a" "b").1)[3]? =
      some (.writeRaw (sbytes ARB_HEADER_INTRO ++ sbytes ARB_HEADER
        ++ sbytes ("[DATA]:" ++ toString ([(1:ℚ)]).length ++ "\r\n")
        ++ ((([(1:ℚ)].map fun v => ratTrunc (32767 * v)).map int16LE).flatten))) :=
  C4_block_structure.2.2.2.2 1 "n" 1 [] "a" "b" (Or.inr rfl) (by decide)
    (by decide) (by decide)

/-- C5: a valid upload queries both channel modes first, then selects the
slot and sends the raw block, then restores channel 1 and channel 2 with two
separate single-channel writes (each naming the mode string read back
earlier), and finally releases the lock. -/
theorem C5_upload_saves_and_restores_modes (i : ℤ) (arb_name : String)
    (x : ℚ) (xs : List ℚ) (w1 w2 : String) (hi : i = 0 ∨ i = 1)
    (hlen : (x :: xs).length ≤ 4000) (hlo : ∀ y ∈ x :: xs, -1 ≤ y)
    (hhi : ∀ y ∈ x :: xs, y ≤ 1) :
    load_arb_from_list i arb_name (x :: xs) w1 w2 =
      ([.query ":CHAN1:BASE:WAV?", .query ":CHAN2:BASE:WAV?",
        .write (":WARB" ++ toString (i + 1) ++ ":CARRIER " ++ arb_name),
        .writeRaw (sbytes ARB_HEADER_INTRO ++ sbytes ARB_HEADER
          ++ sbytes ("[DATA]:" ++ toString (x :: xs).length ++ "\r\n")
          ++ ((((x :: xs).map fun v => ratTrunc (32767 * v)).map int16LE).flatten)),
        .write (":CHAN1:BASE:WAV " ++ w1),
        .write (":CHAN2:BASE:WAV " ++ w2),
        .write ":SYSTEM:LOCK OFF"], none) :=
  load_arb_ok i arb_name x xs w1 w2 hi hlen hlo hhi

/-- C5 witness: the upload trace at slot 0 with prior modes `SIN` and `SQU`
and sample sequence `[0]`. -/
theorem C5_upload_saves_and_restores_modes_witness :
    load_arb_from_list 0 "w" [(0:ℚ)] "SIN" "SQU" =
      ([.query ":CHAN1:BASE:WAV?", .query ":CHAN2:BASE:WAV?",
        .write (":WARB" ++ toString ((0:ℤ) + 1) ++ ":CARRIER " ++ "w"),
        .writeRaw (sbytes ARB_HEADER_INTRO ++ sbytes ARB_HEADER
          ++ sbytes ("[DATA]:" ++ toString ([(0:ℚ)]).length ++ "\r\n")
          ++ ((([(0:ℚ)].map fun v => ratTrunc (32767 * v)).map int16LE).flatten)),
        .write (":CHAN1:BASE:WAV " ++ "SIN"),
        .write (":CHAN2:BASE:WAV " ++ "SQU"),
        .write ":SYSTEM:LOCK OFF"], none) :=
  C5_upload_saves_and_restores_modes 0 "w" 0 [] "SIN" "SQU" (Or.inl rfl)
    (by decide) (by decide) (by decide)

/-- C6: with valid channel, slot and frequency, `set_arb` first writes the
ARB-mode/external-source command, then queries the source back; when the
readback does not start with `EXT` it stops with `ArbNotReady` after exactly
those two events; when it does, it sends slot-select, frequency, low, high,
output-on and lock-release as one combined command. -/
theorem C6_set_arb_readback (c i : ℤ) (f l h : ℚ) (resp : String)
    (hc : c = 1 ∨ c = 2) (hi : i = 0 ∨ i = 1) (hf0 : 0 ≤ f)
    (hf1 : f ≤ 10000000) :
    set_arb c i f l h resp =
      if resp.take 3 = "EXT" then
        ([.write (":CHAN" ++ toString c ++ ":BASE:WAV ARB;"
            ++ ":CHAN" ++ toString c ++ ":ARB:SOUR EXT"),
          .query (":CHAN" ++ toString c ++ ":ARB:SOUR?"),
          .write (":CHAN" ++ toString c ++ ":ARB:IND " ++ toString i ++ ";"
            ++ ":CHAN" ++ toString c ++ ":BASE:FREQ " ++ pyNum f ++ ";"
            ++ ":CHAN" ++ toString c ++ ":BASE:LOW " ++ pyNum l ++ ";"
            ++ ":CHAN" ++ toString c ++ ":BASE:HIGH " ++ pyNum h ++ ";"
            ++ ":CHAN" ++ toString c ++ ":OUTP ON;"
            ++ ":SYSTEM:LOCK OFF")], none)
      else
        ([.write (":CHAN" ++ toString c ++ ":BASE:WAV ARB;"
            ++ ":CHAN" ++ toString c ++ ":ARB:SOUR EXT"),
          .query (":CHAN" ++ toString c ++ ":ARB:SOUR?")],
          some ArbNotReady) := by
  have hvc : validate_channel c = none := by rcases hc with rfl | rfl <;> decide
  have hvi : validate_arb_index i = none := by rcases hi with rfl | rfl <;> decide
  have hvf : validate_frequency 10000000 f = none := by
    unfold validate_frequency
    rw [if_neg (by push_neg; exact ⟨hf0, hf1⟩)]
  by_cases hr : resp.take 3 = "EXT"
  · simp only [set_arb, hvc, hvi, hvf, hr, if_pos, ne_eq, not_true_eq_false,
      if_false, if_true]
  · simp only [set_arb, hvc, hvi, hvf, hr, ne_eq, not_false_eq_true, if_true,
      if_false]

/-- C6 witness: `set_arb` on channel 1, slot 0, 1000 Hz with readback
response `EXT\n`. -/
theorem C6_set_arb_readback_witness :
    set_arb 1 0 1000 (-1) 1 "EXT\n" =
      if ("EXT\n").take 3 = "EXT" then
        ([.write (":CHAN" ++ toString (1:ℤ) ++ ":BASE:WAV ARB;"
            ++ ":CHAN" ++ toString (1:ℤ) ++ ":ARB:SOUR EXT"),
          .query (":CHAN" ++ toString (1:ℤ) ++ ":ARB:SOUR?"),
          .write (":CHAN" ++ toString (1:ℤ) ++ ":ARB:IND " ++ toString (0:ℤ) ++ ";"
            ++ ":CHAN" ++ toString (1:ℤ) ++ ":BASE:FREQ " ++ pyNum 1000 ++ ";"
            ++ ":CHAN" ++ toString (1:ℤ) ++ ":BASE:LOW " ++ pyNum (-1) ++ ";"
            ++ ":CHAN" ++ toString (1:ℤ) ++ ":BASE:HIGH " ++ pyNum 1 ++ ";"
            ++ ":CHAN" ++ toString (1:ℤ) ++ ":OUTP ON;"
            ++ ":SYSTEM:LOCK OFF")], none)
      else
        ([.write (":CHAN" ++ toString (1:ℤ) ++ ":BASE:WAV ARB;"
            ++ ":CHAN" ++ toString (1:ℤ) ++ ":ARB:SOUR EXT"),
          .query (":CHAN" ++ toString (1:ℤ) ++ ":ARB:SOUR?")],
          some ArbNotReady) :=
  C6_set_arb_readback 1 0 1000 (-1) 1 "EXT\n" (Or.inl rfl) (Or.inl rfl)
    (by decide) (by decide)

/-- The frequency guard errors exactly when the frequency is negative or
above the ceiling. -/
theorem validate_frequency_iff (limit f : ℚ) :
    validate_frequency limit f = some (FrequencyOutOfRange limit)
      ↔ (f < 0 ∨ f > limit) := by
  unfold validate_frequency
  by_cases h : f < 0 ∨ f > limit
  · simp [h]
  · simp [h]

/-- C7: `set_sine` on channel 1 at 1000 Hz with low -1 and high 1 emits
exactly one combined command consisting of, in order: waveform-type SIN,
frequency 1000, low -1, high 1, output ON, and a trailing lock-release. -/
theorem C7_sine_command :
    set_sine 1 1000 (-1) 1 =
      ([.write (":CHAN1:BASE:WAV SIN;" ++ ":CHAN1:BASE:FREQ 1000;"
        ++ ":CHAN1:BASE:LOW -1;" ++ ":CHAN1:BASE:HIGH 1;"
        ++ ":CHAN1:OUTP ON;" ++ ":SYSTEM:LOCK OFF")], none) := by
  decide

/-- C8: the frequency check fails with `FrequencyOutOfRange` exactly when
`f < 0` or `f > ceiling` (so `f = ceiling` passes: 60 MHz at a 60 MHz
ceiling succeeds, 61 MHz fails), and each shape setter checks against its
own ceiling: sine 60 MHz, square 20 MHz, ramp 400 kHz, arbitrary 10 MHz. -/
theorem C8_frequency_ceilings :
    (∀ limit f : ℚ, validate_frequency limit f = some (FrequencyOutOfRange limit)
        ↔ (f < 0 ∨ f > limit))
    ∧ validate_frequency 60000000 60000000 = none
    ∧ validate_frequency 60000000 61000000 = some (FrequencyOutOfRange 60000000)
    ∧ (∀ (c : ℤ) (f l h : ℚ), (c = 1 ∨ c = 2) →
        ((set_sine c f l h).2 = some (FrequencyOutOfRange 60000000)
          ↔ (f < 0 ∨ f > 60000000)))
    ∧ (∀ (c : ℤ) (f l h d : ℚ), (c = 1 ∨ c = 2) →
        ((set_square c f l h d).2 = some (FrequencyOutOfRange 20000000)
          ↔ (f < 0 ∨ f > 20000000)))
    ∧ (∀ (c : ℤ) (f l h s : ℚ), (c = 1 ∨ c = 2) →
        ((set_ramp c f l h s).2 = some (FrequencyOutOfRange 400000)
          ↔ (f < 0 ∨ f > 400000)))
    ∧ (∀ (c i : ℤ) (f l h : ℚ) (r : String), (c = 1 ∨ c = 2) → (i = 0 ∨ i = 1) →
        ((set_arb c i f l h r).2 = some (FrequencyOutOfRange 10000000)
          ↔ (f < 0 ∨ f > 10000000))) := by
  refine ⟨validate_frequency_iff, by decide, by decide, ?_, ?_, ?_, ?_⟩
  · intro c f l h hc
    have hvc : validate_channel c = none := by rcases hc with rfl | rfl <;> decide
    by_cases hf : f < 0 ∨ f > 60000000
    · have : validate_frequency 60000000 f = some (FrequencyOutOfRange 60000000) :=
        (validate_frequency_iff 60000000 f).mpr hf
      simp [set_sine, hvc, this, hf]
    · have : validate_frequency 60000000 f = none := by
        unfold validate_frequency; rw [if_neg hf]
      simp [set_sine, hvc, this, hf]
  · intro c f l h d hc
    have hvc : validate_channel c = none := by rcases hc with rfl | rfl <;> decide
    by_cases hf : f < 0 ∨ f > 20000000
    · have : validate_frequency 20000000 f = some (FrequencyOutOfRange 20000000) :=
        (validate_frequency_iff 20000000 f).mpr hf
      simp [set_square, hvc, this, hf]
    · have : validate_frequency 20000000 f = none := by
        unfold validate_frequency; rw [if_neg hf]
      simp [set_square, hvc, this, hf]
  · intro c f l h s hc
    have hvc : validate_channel c = none := by rcases hc with rfl | rfl <;> decide
    by_cases hf : f < 0 ∨ f > 400000
    · have : validate_frequency 400000 f = some (FrequencyOutOfRange 400000) :=
        (validate_frequency_iff 400000 f).mpr hf
      simp [set_ramp, hvc, this, hf]
    · have hvf : validate_frequency 400000 f = none := by
        unfold validate_frequency; rw [if_neg hf]
      by_cases hs : s < 0 ∨ s > 100
      · have hvs : validate_symmetry s = some PercentOutOfRange := by
          unfold validate_symmetry; rw [if_pos hs]
        simp [set_ramp, hvc, hvf, hvs, hf]
        decide
      · have hvs : validate_symmetry s = none := by
          unfold validate_symmetry; rw [if_neg hs]
        simp [set_ramp, hvc, hvf, hvs, hf]
  · intro c i f l h r hc hi
    have hvc : validate_channel c = none := by rcases hc with rfl | rfl <;> decide
    have hvi : validate_arb_index i = none := by rcases hi with rfl | rfl <;> decide
    by_cases hf : f < 0 ∨ f > 10000000
    · have : validate_frequency 10000000 f = some (FrequencyOutOfRange 10000000) :=
        (validate_frequency_iff 10000000 f).mpr hf
      simp [set_arb, hvc, hvi, this, hf]
    · have hvf : validate_frequency 10000000 f = none := by
        unfold validate_frequency; rw [if_neg hf]
      by_cases hr : r.take 3 = "EXT"
      · simp [set_arb, hvc, hvi, hvf, hr, hf]
      · simp [set_arb, hvc, hvi, hvf, hr, hf]
        decide

/-- C8 witness: `set_sine` at 61 MHz on channel 1 fails with the 60 MHz
frequency error. -/
theorem C8_frequency_ceilings_witness :
    (set_sine 1 61000000 0 1).2 = some (FrequencyOutOfRange 60000000) :=
  (C8_frequency_ceilings.2.2.2.1 1 61000000 0 1 (Or.inl rfl)).mpr
    (Or.inr (by decide))

/-- C9: the corrected screenshot pixel at column `x` is the channel-swapped
input pixel at mirrored column `W-1-x` of the same row: output R is the
input G plane, output G the input R plane, output B the input B plane. -/
theorem C9_display_correction (im : Img) (x y : ℕ) (_hx : x < im.width)
    (_hy : y < im.height) :
    (correctDisplay im).px x y =
      ⟨(im.px (im.width - 1 - x) y).g, (im.px (im.width - 1 - x) y).r,
        (im.px (im.width - 1 - x) y).b⟩ := rfl

/-- C9 witness: the correction evaluated at pixel (0, 0) of a concrete 2×1
image. -/
theorem C9_display_correction_witness :
    (correctDisplay ⟨2, 1, fun x _ => ⟨10 * x, 20 * x, 30 * x⟩⟩).px 0 0 =
      ⟨20, 10, 30⟩ := by
  have h := C9_display_correction ⟨2, 1, fun x _ => ⟨10 * x, 20 * x, 30 * x⟩⟩
    0 0 (by decide) (by decide)
  simpa using h

/-- C10: the sample-range check runs before the length checks: a non-empty
sequence that is both longer than 4000 samples and contains an out-of-range
value fails with `SampleOutOfRange`, not `TooManySamples`. -/
theorem C10_range_check_precedes_length (i : ℤ) (arb_name : String) (x : ℚ)
    (xs : List ℚ) (w1 w2 : String) (hi : i = 0 ∨ i = 1)
    (hlen : 4000 < (x :: xs).length) (hout : ∃ y ∈ x :: xs, y < -1 ∨ 1 < y) :
    load_arb_from_list i arb_name (x :: xs) w1 w2 = ([], some SampleOutOfRange)
    ∧ SampleOutOfRange ≠ TooManySamples := by
  have hv : validate_arb_index i = none := by rcases hi with rfl | rfl <;> decide
  obtain ⟨y, hy, hcase⟩ := hout
  have hcond : xs.foldl min x < -1 ∨ xs.foldl max x > 1 := by
    rcases hcase with h1 | h2
    · left
      rcases List.mem_cons.mp hy with rfl | hy2
      · exact lt_of_le_of_lt (foldl_min_le_seed xs y) h1
      · exact lt_of_le_of_lt (foldl_min_le_mem xs x y hy2) h1
    · right
      rcases List.mem_cons.mp hy with rfl | hy2
      · exact lt_of_lt_of_le h2 (seed_le_foldl_max xs y)
      · exact lt_of_lt_of_le h2 (mem_le_foldl_max xs x y hy2)
  constructor
  · simp only [load_arb_from_list, hv]
    rw [if_pos hcond]
  · decide

/-- C10 witness: a 4001-sample sequence whose head is 2 (out of range) fails
with `SampleOutOfRange`. -/
theorem C10_range_check_precedes_length_witness :
    load_arb_from_list 0 "w" ((2:ℚ) :: List.replicate 4000 0) "SIN" "SQU" =
      ([], some SampleOutOfRange)
    ∧ SampleOutOfRange ≠ TooManySamples :=
  C10_range_check_precedes_length 0 "w" 2 (List.replicate 4000 0) "SIN" "SQU"
    (Or.inl rfl) (by rw [List.length_cons, List.length_replicate]; omega)
    ⟨2, List.mem_cons_self 2 (List.replicate 4000 0), Or.inr (by decide)⟩
